import Mathlib

/-!
Verification of the arithmetic-and-greeting utility (`src/main.py`).

The program manipulates dynamically typed Python values; the claims only
ever exercise integers and strings, so we embed the value universe as an
inductive with those two constructors and give the `+` and `*` operators
their Python semantics on that universe: integer addition and string
concatenation for `+`; integer multiplication and string repetition for
`*`; any other combination raises `TypeError`, modelled as `Except.error`.
-/

/-- A Python runtime value, restricted to the types the program uses. -/
inductive PyVal where
  | int : Int → PyVal
  | str : String → PyVal
deriving DecidableEq, Repr

/-- `s * n` for a Python string `s` and non-negative count `n`:
the string repeated `n` times. -/
def strRepeat (s : String) : Nat → String
  | 0 => ""
  | n + 1 => s ++ strRepeat s n

/-- Python's binary `+` on our value universe: integer addition,
string concatenation, `TypeError` on a mixed pair. -/
def pyAdd : PyVal → PyVal → Except String PyVal
  | .int a, .int b => .ok (.int (a + b))
  | .str s, .str t => .ok (.str (s ++ t))
  | _, _ => .error "TypeError"

/-- Python's binary `*` on our value universe: integer multiplication,
string repetition (either operand order; a negative count yields the
empty string, as `Int.toNat` sends negatives to `0`), and `TypeError`
on a pair of strings. -/
def pyMul : PyVal → PyVal → Except String PyVal
  | .int a, .int b => .ok (.int (a * b))
  | .str s, .int k => .ok (.str (strRepeat s k.toNat))
  | .int k, .str s => .ok (.str (strRepeat s k.toNat))
  | .str _, .str _ => .error "TypeError"

/-- Python's `str()` / f-string interpolation of a value. -/
def pyStr : PyVal → String
  | .int n => toString n
  | .str s => s

/-- `add(a, b)` from `src/main.py`: `return a + b`. -/
def add (a b : PyVal) : Except String PyVal := pyAdd a b

/-- `multiply(a, b)` from `src/main.py`: `return a * b`. -/
def multiply (a b : PyVal) : Except String PyVal := pyMul a b

/-- `greet(name)` from `src/main.py`: `return f"Hello, \x7bname\x7d!"`.
F-string interpolation coerces the argument with `str()`, so this is
total on the value universe. -/
def greet (name : PyVal) : String := "Hello, " ++ pyStr name ++ "!"

/-- The `if __name__ == "__main__"` block of `src/main.py`: the lines
printed to standard output, paired with the process exit code (`0`
when no exception escapes). An uncaught `TypeError` would surface as
`Except.error`. -/
def mainRun : Except String (List String × Nat) := do
  let g := greet (PyVal.str "World")
  let s ← add (PyVal.int 2) (PyVal.int 3)
  let p ← multiply (PyVal.int 4) (PyVal.int 5)
  pure ([g, "2 + 3 = " ++ pyStr s, "4 * 5 = " ++ pyStr p], 0)

/-- C1: for all integers `a` and `b`, `add(a, b)` returns the sum `a + b`. -/
theorem add_int_correct (a b : Int) :
    add (PyVal.int a) (PyVal.int b) = Except.ok (PyVal.int (a + b)) := rfl

/-- C2: for all integers `a` and `b`, `multiply(a, b)` returns the product
`a * b`. -/
theorem multiply_int_correct (a b : Int) :
    multiply (PyVal.int a) (PyVal.int b) = Except.ok (PyVal.int (a * b)) := rfl

/-- C3: for every string `n`, `greet(n)` is exactly `"Hello, " ++ n ++ "!"`,
with `n` substituted verbatim. -/
theorem greet_str_correct (n : String) :
    greet (PyVal.str n) = "Hello, " ++ n ++ "!" := rfl

/-- C4: running the module directly prints exactly the three lines
`"Hello, World!"`, `"2 + 3 = 5"`, `"4 * 5 = 20"` in that order and exits
with code `0`. -/
theorem mainRun_output :
    mainRun = Except.ok (["Hello, World!", "2 + 3 = 5", "4 * 5 = 20"], 0) := rfl

/-- C5 counterexample: the claim says every non-numeric argument pair makes
`add` and `multiply` raise a type error, but `multiply` applied to the
string `"ab"` and the integer `3` returns the repeated string `"ababab"`
instead of raising. -/
theorem multiply_str_int_no_error :
    multiply (PyVal.str "ab") (PyVal.int 3) = Except.ok (PyVal.str "ababab") := rfl

/-- C5 (amended): `add` on a string and an integer (in either order) raises
an uncaught `TypeError` at the operator application, as does `multiply` on
two strings; the error propagates to the caller rather than being caught,
retried or translated. (Not every non-numeric pair raises: string
concatenation and string repetition succeed.) -/
theorem mixed_type_errors (s t : String) (n : Int) :
    add (PyVal.str s) (PyVal.int n) = Except.error "TypeError" ∧
    add (PyVal.int n) (PyVal.str s) = Except.error "TypeError" ∧
    multiply (PyVal.str s) (PyVal.str t) = Except.error "TypeError" :=
  ⟨rfl, rfl, rfl⟩

/-- C6: `add` on two strings concatenates them without raising, and
`multiply` on a string and a non-negative integer `k` repeats the string
`k` times without raising. -/
theorem add_multiply_on_strings (s t : String) (k : Nat) :
    add (PyVal.str s) (PyVal.str t) = Except.ok (PyVal.str (s ++ t)) ∧
    multiply (PyVal.str s) (PyVal.int (Int.ofNat k)) =
      Except.ok (PyVal.str (strRepeat s k)) := by
  refine ⟨rfl, ?_⟩
  simp [multiply, pyMul, Int.toNat_ofNat]

/-- C7: `greet` on a non-string value does not raise: it returns
`"Hello, "` followed by the value's string representation and `"!"`;
in particular `greet(42)` is `"Hello, 42!"`. -/
theorem greet_int_coerces (n : Int) :
    greet (PyVal.int n) = "Hello, " ++ toString n ++ "!" ∧
    greet (PyVal.int 42) = "Hello, 42!" :=
  ⟨rfl, rfl⟩

/-- C8: `add` and `multiply` are commutative on integers. -/
theorem add_multiply_comm (a b : Int) :
    add (PyVal.int a) (PyVal.int b) = add (PyVal.int b) (PyVal.int a) ∧
    multiply (PyVal.int a) (PyVal.int b) = multiply (PyVal.int b) (PyVal.int a) := by
  constructor
  · simp [add, pyAdd, Int.add_comm a b]
  · simp [multiply, pyMul, Int.mul_comm a b]

/-- C9: `0` is an identity for `add` on either side, and `multiply(0, b)`
is `0` for every integer `b`. -/
theorem zero_identity (a b : Int) :
    add (PyVal.int a) (PyVal.int 0) = Except.ok (PyVal.int a) ∧
    add (PyVal.int 0) (PyVal.int a) = Except.ok (PyVal.int a) ∧
    multiply (PyVal.int 0) (PyVal.int b) = Except.ok (PyVal.int 0) := by
  refine ⟨?_, ?_, ?_⟩
  · simp [add, pyAdd]
  · simp [add, pyAdd]
  · simp [multiply, pyMul]

/-- C10: `add`, `multiply` and `greet` are deterministic pure functions:
two calls with identical inputs produce identical outputs. -/
theorem functions_deterministic (a₁ b₁ a₂ b₂ v₁ v₂ : PyVal)
    (ha : a₁ = a₂) (hb : b₁ = b₂) (hv : v₁ = v₂) :
    add a₁ b₁ = add a₂ b₂ ∧
    multiply a₁ b₁ = multiply a₂ b₂ ∧
    greet v₁ = greet v₂ := by
  subst ha; subst hb; subst hv
  exact ⟨rfl, rfl, rfl⟩

/-- Witness for C10 at concrete inputs. -/
theorem functions_deterministic_witness :
    add (PyVal.int 2) (PyVal.int 3) = add (PyVal.int 2) (PyVal.int 3) ∧
    multiply (PyVal.int 2) (PyVal.int 3) = multiply (PyVal.int 2) (PyVal.int 3) ∧
    greet (PyVal.str "Alice") = greet (PyVal.str "Alice") :=
  functions_deterministic (PyVal.int 2) (PyVal.int 3) (PyVal.int 2) (PyVal.int 3)
    (PyVal.str "Alice") (PyVal.str "Alice") rfl rfl rfl
